import Mathlib

/-
Verification of the transaction-reporting backend (src/mern-backend/server.js).

The server keeps one MongoDB collection of transactions and exposes six
HTTP handlers over it.  We embed the collection as a list of documents, a
date-time as a rational number of days since 2022-01-01 00:00 (the
fractional part is the time of day; all the server's date arithmetic is
confined to year 2022), and each handler as a pure function of the store
and the parsed query parameters.  The fallible structure of the two
multi-query handlers and of the initialization handler is embedded
separately with Except-valued steps.
-/

namespace Server

/-- Lengths of the twelve months of 2022 (not a leap year). -/
def daysInMonth2022 : List Nat := [31, 28, 31, 30, 31, 30, 31, 31, 30, 31, 30, 31]

/-- Number of days from 2022-01-01 to the first day of the month with
zero-based index m (for m = 12 this is the number of days in 2022). -/
def daysBefore (m : Nat) : Nat := (daysInMonth2022.take m).sum

/-- Embedding of the JavaScript constructor new Date(2022, monthIndex, day)
as days since 2022-01-01 00:00.  Per the ECMAScript MakeDay rule the
result is the start of the given month plus (day - 1) days, so day = 0
lands on the last day of the preceding month.  The resulting time of day
is midnight (the value is an integer). -/
def jsDate2022 (monthIndex : Nat) (day : Int) : ℚ :=
  (daysBefore monthIndex : ℚ) + ((day : ℚ) - 1)

/-- Embedding of startOfMonth = new Date(2022, month - 1, 1) in server.js. -/
def startOfMonth (month : Nat) : ℚ := jsDate2022 (month - 1) 1

/-- Embedding of endOfMonth = new Date(2022, month, 0) in server.js. -/
def endOfMonth (month : Nat) : ℚ := jsDate2022 month 0

/-- Spec-side definition: the timestamp (midnight) of the calendar date
2022-month-day, written directly from the calendar. -/
def dateOfDay2022 (month day : Nat) : ℚ :=
  (daysBefore (month - 1) : ℚ) + (day : ℚ) - 1

/-- Spec-side definition: midnight on the last valid calendar day of the
given month of 2022, i.e. the day numbered by the month's length. -/
def specLastDayOfMonth (month : Nat) : ℚ :=
  dateOfDay2022 month (daysInMonth2022.getD (month - 1) 0)

/-- A document of the transactions collection (mongoose transactionSchema). -/
structure Transaction where
  title : String
  description : String
  price : Option ℚ
  dateOfSale : ℚ
  category : String
  sold : Bool
deriving DecidableEq

/-- The date filter shared by every query handler:
dateOfSale between startOfMonth and endOfMonth, both inclusive. -/
def inDateRange (month : Nat) (d : Transaction) : Bool :=
  decide (startOfMonth month ≤ d.dateOfSale) && decide (d.dateOfSale ≤ endOfMonth month)

/-- One entry of the priceRanges table of the bar-chart handler. -/
structure PriceRange where
  range : String
  min : ℚ
  max : Option ℚ
deriving DecidableEq

/-- The priceRanges table of server.js; max = none embeds Infinity
(every number compares at most Infinity). -/
def priceRanges : List PriceRange :=
  [⟨"0-100", 0, some 100⟩,
   ⟨"101-200", 101, some 200⟩,
   ⟨"201-300", 201, some 300⟩,
   ⟨"301-400", 301, some 400⟩,
   ⟨"401-500", 401, some 500⟩,
   ⟨"501-600", 501, some 600⟩,
   ⟨"601-700", 601, some 700⟩,
   ⟨"701-800", 701, some 800⟩,
   ⟨"801-900", 801, some 900⟩,
   ⟨"901-above", 901, none⟩]

/-- Mongo condition price between r.min and r.max on a present number. -/
def bucketMatch (r : PriceRange) (p : ℚ) : Bool :=
  decide (r.min ≤ p) && (match r.max with | some mx => decide (p ≤ mx) | none => true)

/-- The price part of one bucket's countDocuments filter; a document
without a price matches no range comparison. -/
def priceMatch (r : PriceRange) (d : Transaction) : Bool :=
  match d.price with
  | some p => bucketMatch r p
  | none => false

/-- One element of the bar-chart response. -/
structure BarEntry where
  range : String
  count : Nat
deriving DecidableEq

/-- Embedding of the bar-chart handler: one countDocuments per price range,
reassembled in the declaration order of priceRanges. -/
def barChartHandler (store : List Transaction) (month : Nat) : List BarEntry :=
  priceRanges.map fun r =>
    ⟨r.range, store.countP fun d => inDateRange month d && priceMatch r d⟩

/-- Case-insensitive substring test on character lists. -/
def substrSearch (needle : List Char) : List Char → Bool
  | [] => needle.isEmpty
  | c :: t => needle.isPrefixOf (c :: t) || substrSearch needle t

/-- Embedding of new RegExp(search, i-flag) applied to a string field:
the search text occurs in the field, case-insensitively. -/
def regexIMatch (search s : String) : Bool :=
  substrSearch (search.toList.map Char.toLower) (s.toList.map Char.toLower)

/-- The $or clause of the transactions filter: title or description
matches the regex; the price clause is a regex applied to a numeric
field, which MongoDB never matches, embedded as false. -/
def searchMatch (search : String) (d : Transaction) : Bool :=
  regexIMatch search d.title || regexIMatch search d.description || false

/-- The query parameters a request may carry; absent parameters are none. -/
structure Query where
  month : Nat
  page : Option Nat
  perPage : Option Nat
  search : Option String
deriving DecidableEq

/-- Embedding of the transactions handler: defaults page = 1, perPage = 10,
search empty, then find with the date and search filter, skip
(page - 1) * perPage and limit Number(perPage).  The skip amount is
computed over the integers: the MongoDB driver rejects a negative skip,
and the handler's catch turns that rejection into the 500 response,
embedded as the error value.  A limit of 0 is MongoDB's no-limit, so
perPage = 0 keeps every document after the skip. -/
def transactionsHandler (store : List Transaction) (q : Query) :
    Except String (List Transaction) :=
  let page := q.page.getD 1
  let perPage := q.perPage.getD 10
  let search := q.search.getD ""
  let skip : Int := ((page : Int) - 1) * (perPage : Int)
  if skip < 0 then .error "Error fetching transactions"
  else
    let paged := (store.filter fun d =>
      inDateRange q.month d && searchMatch search d).drop skip.toNat
    .ok (if perPage = 0 then paged else paged.take perPage)

/-- The statistics response shape. -/
structure Stats where
  totalSaleAmount : ℚ
  totalSoldItems : Nat
  totalNotSoldItems : Nat
deriving DecidableEq

/-- Embedding of the $group stage summing price: the aggregate returns no
group at all on an empty match, and one group holding the sum otherwise;
a missing price contributes 0 to $sum. -/
def sumAgg (l : List Transaction) : List ℚ :=
  if l.isEmpty then [] else [(l.map fun d => d.price.getD 0).sum]

/-- Embedding of the statistics handler; totalSaleAmount reads the first
group's total and falls back to 0, as totalSaleAmount[0]?.total does. -/
def statisticsHandler (store : List Transaction) (month : Nat) : Stats :=
  let agg := sumAgg (store.filter fun d => inDateRange month d && d.sold)
  { totalSaleAmount := agg.head?.getD 0
    totalSoldItems := store.countP fun d => inDateRange month d && d.sold
    totalNotSoldItems := store.countP fun d => inDateRange month d && !d.sold }

/-- The distinct categories of a document list, in order of first
occurrence (a concrete order for the unordered Mongo grouping). -/
def pieCategories (l : List Transaction) : List String :=
  l.foldl (fun acc d => if acc.contains d.category then acc else acc ++ [d.category]) []

/-- Embedding of the pie-chart handler: group the in-range documents by
category and count each group. -/
def pieChartHandler (store : List Transaction) (month : Nat) : List (String × Nat) :=
  let matched := store.filter (inDateRange month)
  (pieCategories matched).map fun c => (c, matched.countP fun d => d.category == c)

/-- The combined-data response shape. -/
structure CombinedData where
  transactions : List Transaction
  statistics : Stats
  barChart : List BarEntry
  pieChart : List (String × Nat)
deriving DecidableEq

/-- Embedding of the combined-data handler.  In server.js it calls the
service's own four endpoints over the loopback with the forwarded query;
against a fixed store snapshot those calls are the four handler functions
applied to the same store and the same parameters, which is how we embed
the fan-out.  Of the four, only the transactions call can fail in this
embedding (a negative skip); its rejection propagates through the
handler's Promise.all and catch into the 500 response. -/
def combinedDataHandler (store : List Transaction) (q : Query) :
    Except String CombinedData :=
  match transactionsHandler store q with
  | .error e => .error e
  | .ok tv =>
    .ok { transactions := tv
          statistics := statisticsHandler store q.month
          barChart := barChartHandler store q.month
          pieChart := pieChartHandler store q.month }

/-- Result of a fallible step: either a value or a caught error. -/
def exceptOk {ε α : Type} : Except ε α → Bool
  | .ok _ => true
  | .error _ => false

/-- Embedding of Promise.all over a mapped list: every element's operation
runs, and the joined result is a value only when every single one
succeeded; otherwise it is one of the rejections. -/
def collectResults {α β : Type} (f : α → Except String β) : List α → Except String (List β)
  | [] => .ok []
  | a :: t =>
    match f a, collectResults f t with
    | .ok b, .ok bs => .ok (b :: bs)
    | .error e, _ => .error e
    | .ok _, .error e => .error e

/-- Fallible embedding of the bar-chart fan-out: each bucket's
countDocuments may fail; Promise.all plus the try/catch make the whole
response fail if any one count fails. -/
def barChartFallible (countF : PriceRange → Except String Nat) :
    Except String (List BarEntry) :=
  collectResults (fun r => (countF r).map fun c => ⟨r.range, c⟩) priceRanges

/-- Fallible embedding of the combined-data fan-out over the four
sub-operation results: the handler's Promise.all joined with its
try/catch yields a combination only when all four succeeded. -/
def combinedFallible (t : Except String (List Transaction)) (s : Except String Stats)
    (b : Except String (List BarEntry)) (p : Except String (List (String × Nat))) :
    Except String CombinedData :=
  match t, s, b, p with
  | .ok tv, .ok sv, .ok bv, .ok pv => .ok ⟨tv, sv, bv, pv⟩
  | .error e, _, _, _ => .error e
  | _, .error e, _, _ => .error e
  | _, _, .error e, _ => .error e
  | _, _, _, .error e => .error e

/-- The two HTTP outcomes an init request can have. -/
inductive InitResp where
  | ok200 : InitResp
  | err500 : InitResp
deriving DecidableEq

/-- Embedding of the init handler: fetch the remote array, deleteMany,
insertMany, all inside one try/catch.  The boolean parameters say whether
the two store operations succeed; the returned pair is the HTTP outcome
and the collection contents afterwards. -/
def initRun (fetchRes : Except String (List Transaction)) (deleteOk insertOk : Bool)
    (store : List Transaction) : InitResp × List Transaction :=
  match fetchRes with
  | .error _ => (.err500, store)
  | .ok data =>
    if deleteOk then
      if insertOk then (.ok200, data) else (.err500, [])
    else (.err500, store)

/-- Comparison saying one price range lies entirely below another. -/
def rangeBelow (a b : PriceRange) : Bool :=
  match a.max with
  | some mx => decide (mx < b.min)
  | none => false

lemma priceRanges_below : priceRanges.Pairwise fun a b => rangeBelow a b = true := by
  simp only [priceRanges, List.pairwise_cons, List.mem_cons, List.not_mem_nil]
  norm_num [rangeBelow]

lemma bucket_disjoint {a b : PriceRange} (hab : rangeBelow a b = true) (p : ℚ)
    (ha : bucketMatch a p = true) : bucketMatch b p = false := by
  unfold rangeBelow at hab
  unfold bucketMatch at ha ⊢
  cases hmax : a.max with
  | none => rw [hmax] at hab; exact absurd hab (by simp)
  | some mx =>
    rw [hmax] at hab ha
    simp only [decide_eq_true_eq, Bool.and_eq_true] at hab ha
    have hp : p ≤ mx := by
      have := ha.2
      simpa using this
    have hlt : ¬ (b.min ≤ p) := by linarith
    simp [hlt]

lemma countP_below : ∀ l : List PriceRange, (l.Pairwise fun a b => rangeBelow a b = true) →
    ∀ p : ℚ, (l.countP fun r => bucketMatch r p)
      = if l.any (fun r => bucketMatch r p) then 1 else 0 := by
  intro l hl p
  induction l with
  | nil => simp
  | cons r t ih =>
    rw [List.pairwise_cons] at hl
    cases hm : bucketMatch r p with
    | false => simp [List.countP_cons, List.any_cons, hm, ih hl.2]
    | true =>
      have hzero : t.countP (fun r => bucketMatch r p) = 0 := by
        rw [List.countP_eq_zero]
        intro b hb
        simp [bucket_disjoint (hl.1 b hb) p hm]
      simp [List.countP_cons, List.any_cons, hm, hzero]

lemma sumMapAdd {α : Type} (l : List α) (f g : α → Nat) :
    (l.map fun x => f x + g x).sum = (l.map f).sum + (l.map g).sum := by
  induction l with
  | nil => simp
  | cons a t ih => simp only [List.map_cons, List.sum_cons, ih]; omega

lemma countP_eq_sumMap {α : Type} (l : List α) (p : α → Bool) :
    l.countP p = (l.map fun x => if p x then 1 else 0).sum := by
  induction l with
  | nil => simp
  | cons a t ih => cases h : p a <;> simp [List.countP_cons, h, ih, Nat.add_comm]

lemma sum_countP_comm {α β : Type} (rs : List β) (l : List α) (f : β → α → Bool)
    (h : ∀ a, (rs.countP fun r => f r a) = if rs.any (fun r => f r a) then 1 else 0) :
    (rs.map fun r => l.countP (f r)).sum = l.countP fun a => rs.any fun r => f r a := by
  induction l with
  | nil => simp
  | cons a t ih =>
    calc (rs.map fun r => (a :: t).countP (f r)).sum
        = (rs.map fun r => t.countP (f r) + if f r a then 1 else 0).sum := by
          simp only [List.countP_cons]
      _ = (rs.map fun r => t.countP (f r)).sum
            + (rs.map fun r => if f r a then 1 else 0).sum := sumMapAdd ..
      _ = (t.countP fun x => rs.any fun r => f r x)
            + (rs.countP fun r => f r a) := by
          rw [ih, countP_eq_sumMap rs fun r => f r a]
      _ = (a :: t).countP fun x => rs.any fun r => f r x := by
          rw [h a, List.countP_cons]

lemma per_doc_count (month : Nat) (d : Transaction) :
    (priceRanges.countP fun r => inDateRange month d && priceMatch r d)
      = if priceRanges.any (fun r => inDateRange month d && priceMatch r d)
          then 1 else 0 := by
  cases hd : inDateRange month d with
  | false => simp [hd]
  | true =>
    simp only [hd, Bool.true_and]
    cases hp : d.price with
    | none =>
      have hz : (priceRanges.countP fun r => priceMatch r d) = 0 :=
        List.countP_eq_zero.mpr (by intro r _; simp [priceMatch, hp])
      have ha : (priceRanges.any fun r => priceMatch r d) = false := by
        rw [List.any_eq_false]
        intro r _
        simp [priceMatch, hp]
      simp [hz, ha]
    | some p =>
      have heq : (fun r => priceMatch r d) = fun r => bucketMatch r p := by
        funext r
        simp [priceMatch, hp]
      rw [heq]
      exact countP_below priceRanges priceRanges_below p

/-- C2: for every month 1-12 the resolver's start is midnight on the first
calendar day of that month of 2022 and its end is midnight on the last
valid calendar day of that month of 2022 (Feb 28, Apr 30, and so on); the
resolver is a pure function of the month, embedded as such. -/
theorem c2_month_range (m : Nat) (h1 : 1 ≤ m) (h2 : m ≤ 12) :
    startOfMonth m = dateOfDay2022 m 1 ∧ endOfMonth m = specLastDayOfMonth m := by
  interval_cases m <;>
    norm_num [startOfMonth, endOfMonth, jsDate2022, dateOfDay2022, specLastDayOfMonth,
      daysBefore, daysInMonth2022]

/-- Witness for C2 at month 2: February's range is Feb 1 to Feb 28 2022. -/
theorem c2_month_range_witness :
    startOfMonth 2 = dateOfDay2022 2 1 ∧ endOfMonth 2 = specLastDayOfMonth 2 :=
  c2_month_range 2 (by norm_num) (by norm_num)

/-- C3: on a fixed store snapshot, the combined-data result is exactly
the independent transactions result carrying, when it succeeds, the four
fields transactions, statistics, barChart and pieChart equal to the four
individual handlers invoked with the same forwarded parameters (the
loopback HTTP calls of server.js are embedded as in-process calls on the
same snapshot; a failed transactions sub-call fails the combination with
the same error). -/
theorem c3_combined_matches_individual (store : List Transaction) (q : Query) :
    combinedDataHandler store q
      = (transactionsHandler store q).map fun tv =>
          { transactions := tv
            statistics := statisticsHandler store q.month
            barChart := barChartHandler store q.month
            pieChart := pieChartHandler store q.month } := by
  cases h : transactionsHandler store q <;> simp [combinedDataHandler, h, Except.map]

/-- C4: for every store and month the bar-chart result has exactly 10
entries whose labels are the fixed bucket labels in declaration order;
the reassembly is positional (Promise.all keeps the declaration order),
embedded as a map over the priceRanges list. -/
theorem c4_bar_chart_shape (store : List Transaction) (month : Nat) :
    (barChartHandler store month).length = 10 ∧
    (barChartHandler store month).map BarEntry.range
      = ["0-100", "101-200", "201-300", "301-400", "401-500",
         "501-600", "601-700", "701-800", "801-900", "901-above"] := by
  constructor <;> simp [barChartHandler, priceRanges]

/-- C6: a successful initialization replaces the collection's contents by
the fetched source array, so running it once and then again against the
unchanged source leaves the collection equal to the source both times
(the embedding carries no store-assigned ids). -/
theorem c6_init_idempotent (store data : List Transaction) :
    (initRun (.ok data) true true store).2 = data ∧
    (initRun (.ok data) true true ((initRun (.ok data) true true store).2)).2 = data :=
  ⟨rfl, rfl⟩

/-- C8: the init handler's delete and insert are separate steps under one
try/catch: a failed fetch returns the error response with the collection
untouched, and a failed insert after a successful delete returns the
error response with the collection left empty. -/
theorem c8_init_partial_state (e : String) (dOk iOk : Bool) (store data : List Transaction) :
    initRun (.error e) dOk iOk store = (.err500, store) ∧
    initRun (.ok data) true false store = (.err500, []) :=
  ⟨rfl, rfl⟩

/-- One-document January store used to exhibit the paging edge cases. -/
def c9Store : List Transaction :=
  [⟨"Wallet", "leather wallet", some 20, 5, "misc", true⟩]

/-- C9 (counterexample): at page = 1 and perPage = 0 the program's
limit(0) is MongoDB's no-limit, so the handler returns the whole match,
not the empty page that limiting to perPage = 0 documents would give; and
at page = 0 the negative skip fails the request with the 500 text instead
of returning a page at all. -/
theorem c9_paging_counterexample :
    ¬ (transactionsHandler c9Store ⟨1, some 1, some 0, none⟩
        = .ok (((c9Store.filter fun d => inDateRange 1 d && searchMatch "" d).drop
            ((1 - 1) * 0)).take 0)) ∧
    transactionsHandler c9Store ⟨1, some 0, some 10, none⟩
      = .error "Error fetching transactions" := by
  constructor <;>
    norm_num [c9Store, transactionsHandler, inDateRange, searchMatch, regexIMatch,
      substrSearch, List.isPrefixOf, startOfMonth, endOfMonth, jsDate2022, daysBefore,
      daysInMonth2022, List.filter]

/-- C9 (amended): the list-transactions handler defaults page to 1,
perPage to 10 and search to the empty string; whenever the resolved page
and perPage are at least 1 it returns the page of in-range matching
documents obtained by dropping (page - 1) * perPage of them and keeping
at most perPage; a resolved perPage of 0 is MongoDB's no-limit and
returns every matching document from the skip onward, and a resolved
page of 0 with a positive perPage makes the negative skip fail the
request with a server error. -/
theorem c9_transactions_paging (store : List Transaction) (q : Query)
    (hpage : 1 ≤ q.page.getD 1) (hper : 1 ≤ q.perPage.getD 10) :
    transactionsHandler store ⟨q.month, none, none, none⟩
      = transactionsHandler store ⟨q.month, some 1, some 10, some ""⟩ ∧
    transactionsHandler store q
      = .ok (((store.filter fun d => inDateRange q.month d &&
            searchMatch (q.search.getD "") d).drop
          ((q.page.getD 1 - 1) * q.perPage.getD 10)).take (q.perPage.getD 10)) ∧
    (∀ page search, transactionsHandler store ⟨q.month, page, some 0, search⟩
        = .ok (store.filter fun d =>
            inDateRange q.month d && searchMatch (search.getD "") d)) ∧
    (∀ perPage search, 1 ≤ perPage →
      transactionsHandler store ⟨q.month, some 0, some perPage, search⟩
        = .error "Error fetching transactions") := by
  refine ⟨rfl, ?_, ?_, ?_⟩
  · have hcast : ((q.page.getD 1 : Int) - 1) * (q.perPage.getD 10 : Int)
        = (((q.page.getD 1 - 1) * q.perPage.getD 10 : Nat) : Int) := by
      have h1 : (q.page.getD 1 : Int) - 1 = ((q.page.getD 1 - 1 : Nat) : Int) := by omega
      rw [h1, ← Nat.cast_mul]
    simp only [transactionsHandler, hcast]
    rw [if_neg (by exact Int.not_lt.mpr (Int.natCast_nonneg _)),
      if_neg (by omega : ¬ q.perPage.getD 10 = 0), Int.toNat_natCast]
  · intro page search
    have hz : ((page.getD 1 : Int) - 1) * ((0 : Nat) : Int) = 0 := by simp
    simp only [transactionsHandler, Option.getD_some, hz]
    norm_num
  · intro perPage search hpp
    have hneg : (((0 : Nat) : Int) - 1) * (perPage : Int) < 0 := by
      have h1 : (1 : Int) ≤ (perPage : Int) := by exact_mod_cast hpp
      have h2 : (((0 : Nat) : Int) - 1) * (perPage : Int) = -(perPage : Int) := by
        push_cast
        ring
      rw [h2]
      omega
    simp only [transactionsHandler, Option.getD_some]
    rw [if_pos hneg]

/-- Witness for C9 at page 2, perPage 1 on the one-document store: the
second page drops the only match and is empty. -/
theorem c9_transactions_paging_witness :
    transactionsHandler c9Store ⟨1, some 2, some 1, none⟩
      = .ok (((c9Store.filter fun d => inDateRange 1 d && searchMatch "" d).drop
          ((2 - 1) * 1)).take 1) :=
  (c9_transactions_paging c9Store ⟨1, some 2, some 1, none⟩
    (by norm_num) (by norm_num)).2.1

/-- One-document store whose price 100.5 lies strictly between the 0-100
bucket and the 101-200 bucket. -/
def c1Store : List Transaction :=
  [⟨"Gap", "priced between buckets", some (201 / 2), 5, "misc", true⟩]

/-- C1 (counterexample): with one January document priced 100.5 the ten
bucket counts sum to 0 while one in-range document has a defined price,
so the claimed equality fails: the buckets have gaps at the non-integer
prices between consecutive bounds. -/
theorem c1_sum_counts_counterexample :
    ¬ (((barChartHandler c1Store 1).map BarEntry.count).sum
        = c1Store.countP fun d => inDateRange 1 d && d.price.isSome) := by
  norm_num [c1Store, barChartHandler, priceRanges, inDateRange, priceMatch, bucketMatch,
    startOfMonth, endOfMonth, jsDate2022, daysBefore, daysInMonth2022,
    List.countP, List.countP.go, Option.isSome]

/-- C1 (amended): for every month and store the sum of the ten bucket
counts equals the number of in-range documents whose price lies inside
one of the ten bucket intervals; such a document is counted in exactly
one bucket because the intervals are pairwise disjoint, while a document
whose defined price falls in a gap between buckets or below 0 is counted
in none. -/
theorem c1_sum_counts_amended (store : List Transaction) (month : Nat) :
    ((barChartHandler store month).map BarEntry.count).sum
      = store.countP fun d => inDateRange month d && priceRanges.any fun r => priceMatch r d := by
  have hfun : (fun d => inDateRange month d && priceRanges.any fun r => priceMatch r d)
      = fun d => priceRanges.any fun r => inDateRange month d && priceMatch r d := by
    funext d
    cases hd : inDateRange month d <;> simp [hd]
  rw [hfun]
  unfold barChartHandler
  rw [List.map_map]
  have h := sum_countP_comm priceRanges store
    (fun r d => inDateRange month d && priceMatch r d) (per_doc_count month)
  simpa using h

/-- Head reading of the sum aggregate equals the plain sum, the sum of an
empty match being 0. -/
lemma sumAgg_head (l : List Transaction) :
    (sumAgg l).head?.getD 0 = (l.map fun d => d.price.getD 0).sum := by
  unfold sumAgg
  cases hl : l.isEmpty with
  | true => simp [List.isEmpty_iff.mp hl]
  | false => simp [hl]

/-- C5: the statistics handler returns the sum of the prices of the
in-range sold documents (a missing price contributing 0), the count of
in-range sold documents and the count of in-range unsold documents, and
the amount is the number 0 whenever no sold document is in range. -/
theorem c5_statistics (store : List Transaction) (month : Nat) :
    statisticsHandler store month =
      { totalSaleAmount := ((store.filter fun d => inDateRange month d && d.sold).map
            fun d => d.price.getD 0).sum
        totalSoldItems := store.countP fun d => inDateRange month d && d.sold
        totalNotSoldItems := store.countP fun d => inDateRange month d && !d.sold } ∧
    ((store.countP fun d => inDateRange month d && d.sold) = 0 →
      (statisticsHandler store month).totalSaleAmount = 0) := by
  constructor
  · simp [statisticsHandler, sumAgg_head]
  · intro h0
    have hnil : (store.filter fun d => inDateRange month d && d.sold) = [] := by
      rw [List.filter_eq_nil_iff]
      exact List.countP_eq_zero.mp h0
    simp [statisticsHandler, hnil, sumAgg]

/-- Witness for C5 on the empty store: no documents are sold in range and
the reported amount is 0. -/
theorem c5_statistics_witness :
    (statisticsHandler ([] : List Transaction) 1).totalSaleAmount = 0 :=
  (c5_statistics [] 1).2 (by simp)

/-- Mapping a pure function over a fallible result does not change whether
it succeeded. -/
lemma exceptOk_map {α β : Type} (g : α → β) (x : Except String α) :
    exceptOk (x.map g) = exceptOk x := by
  cases x <;> rfl

/-- Joining a list of fallible results fails whenever any element fails. -/
lemma collectResults_error {α β : Type} (f : α → Except String β) :
    ∀ l : List α, (∃ a ∈ l, exceptOk (f a) = false) →
      exceptOk (collectResults f l) = false := by
  intro l
  induction l with
  | nil => rintro ⟨a, ha, _⟩; exact absurd ha (List.not_mem_nil a)
  | cons a t ih =>
    rintro ⟨x, hx, hfx⟩
    rw [List.mem_cons] at hx
    unfold collectResults
    rcases hx with rfl | hx
    · cases hf : f x with
      | error e => cases hc : collectResults f t <;> simp [hf, hc, exceptOk]
      | ok b => rw [hf] at hfx; exact absurd hfx (by simp [exceptOk])
    · have ht := ih ⟨x, hx, hfx⟩
      cases hf : f a with
      | error e => cases hc : collectResults f t <;> simp [hf, hc, exceptOk]
      | ok b =>
        cases hc : collectResults f t with
        | error e => simp [hf, hc, exceptOk]
        | ok bs => rw [hc] at ht; exact absurd ht (by simp [exceptOk])

/-- C7: the two fan-out handlers are all-or-nothing: if any of the ten
bucket counts fails the bar-chart response is a failure and no partial
histogram exists, and if any of the four sub-operations fails the
combined-data response is a failure and no partial combination exists. -/
theorem c7_all_or_nothing :
    (∀ countF : PriceRange → Except String Nat,
      (∃ r ∈ priceRanges, exceptOk (countF r) = false) →
        exceptOk (barChartFallible countF) = false) ∧
    (∀ (t : Except String (List Transaction)) (s : Except String Stats)
        (b : Except String (List BarEntry)) (p : Except String (List (String × Nat))),
      (exceptOk t = false ∨ exceptOk s = false ∨ exceptOk b = false ∨ exceptOk p = false) →
        exceptOk (combinedFallible t s b p) = false) := by
  constructor
  · intro countF h
    obtain ⟨r, hr, hbad⟩ := h
    unfold barChartFallible
    exact collectResults_error _ priceRanges ⟨r, hr, by rw [exceptOk_map]; exact hbad⟩
  · intro t s b p h
    rcases h with h | h | h | h <;>
      (cases t <;> cases s <;> cases b <;> cases p <;>
        first
        | rfl
        | simp [exceptOk] at h)

/-- Witness for C7: a failing first bucket fails the whole bar chart, and
a failing transactions sub-call fails the whole combination. -/
theorem c7_all_or_nothing_witness :
    exceptOk (barChartFallible fun _ => .error "boom") = false ∧
    exceptOk (combinedFallible (.error "boom") (.ok ⟨0, 0, 0⟩) (.ok []) (.ok [])) = false :=
  ⟨c7_all_or_nothing.1 _ ⟨⟨"0-100", 0, some 100⟩, by simp [priceRanges], rfl⟩,
   c7_all_or_nothing.2 _ _ _ _ (Or.inl rfl)⟩

/-- Document sold at noon of the last day of the given month of 2022. -/
def lateDoc (m : Nat) : Transaction :=
  ⟨"Bag", "Blue bag", some 150, endOfMonth m + 1 / 2, "Clothing", true⟩

/-- C10: for every month 1-12 the shared upper bound of the date filter is
midnight at the start of the last day of the month, so a document sold on
the last day strictly after midnight (here at noon) lies on a calendar
day of the month yet is excluded from the transactions, statistics,
bar-chart and pie-chart results for that month. -/
theorem c10_end_of_month_exclusion (m : Nat) (h1 : 1 ≤ m) (h2 : m ≤ 12) :
    endOfMonth m = specLastDayOfMonth m ∧
    specLastDayOfMonth m ≤ (lateDoc m).dateOfSale ∧
    (lateDoc m).dateOfSale < specLastDayOfMonth m + 1 ∧
    inDateRange m (lateDoc m) = false ∧
    transactionsHandler [lateDoc m] ⟨m, none, none, none⟩ = .ok [] ∧
    statisticsHandler [lateDoc m] m = ⟨0, 0, 0⟩ ∧
    (barChartHandler [lateDoc m] m).map BarEntry.count
      = [0, 0, 0, 0, 0, 0, 0, 0, 0, 0] ∧
    pieChartHandler [lateDoc m] m = [] := by
  interval_cases m <;>
    norm_num [lateDoc, inDateRange, startOfMonth, endOfMonth, jsDate2022, dateOfDay2022,
      specLastDayOfMonth, daysBefore, daysInMonth2022, transactionsHandler,
      statisticsHandler, sumAgg, pieChartHandler, pieCategories, barChartHandler,
      priceRanges, priceMatch, bucketMatch, List.countP, List.countP.go, List.filter,
      Stats.mk.injEq]

/-- Witness for C10 at month 3: a sale at noon of Mar 31 2022 is dropped
by every March query. -/
theorem c10_end_of_month_exclusion_witness :
    inDateRange 3 (lateDoc 3) = false ∧
    transactionsHandler [lateDoc 3] ⟨3, none, none, none⟩ = .ok [] :=
  ⟨((c10_end_of_month_exclusion 3 (by norm_num) (by norm_num)).2.2.2).1,
   ((c10_end_of_month_exclusion 3 (by norm_num) (by norm_num)).2.2.2).2.1⟩

end Server
